import Mathlib

/-!
# Verification of the AiAstro RAG orchestration core

Shallow embedding of `src/rag_service/agentic_rag.py` (query decomposition,
multi-hop retrieval with content-keyed deduplication, confidence-gated
routing, refinement) and `src/rag_service/langgraph_rag.py` (the second
pipeline variant with its retry counter), together with proofs of the
spec's testable properties.

Python string primitives (`split`, `replace`, `strip`, `lower`,
`startswith`, the `in` operator) are modelled by structurally recursive
functions over `List Char`, matching Python semantics for the non-empty
separators used by the source.

Language-model and vector-store collaborators are nondeterministic and
fallible; each node takes the collaborator outcome as an explicit
`Except`-valued argument (`.ok` carries the completion text or the
retriever results, `.error` the exception message), mirroring the
`try/except` structure of the source.
-/

/-- Python `str.split(sep)` worker over character lists, fuel-bounded
(one unit of fuel per consumed character suffices for non-empty `sep`). -/
def splitChars (sep : List Char) : Nat → List Char → List Char → List (List Char)
  | _, [], acc => [acc.reverse]
  | 0, rest, acc => [acc.reverse ++ rest]
  | fuel + 1, c :: cs, acc =>
    if sep.isPrefixOf (c :: cs) then
      acc.reverse :: splitChars sep fuel (List.drop sep.length (c :: cs)) []
    else
      splitChars sep fuel cs (c :: acc)

/-- Python `s.split(sep)` for non-empty `sep`. -/
def pySplit (s sep : String) : List String :=
  (splitChars sep.data s.data.length s.data []).map (fun cs => String.mk cs)

/-- Python `sep.join(parts)`. -/
def joinWith (sep : String) : List String → String
  | [] => ""
  | [x] => x
  | x :: y :: xs => x ++ sep ++ joinWith sep (y :: xs)

/-- Python `s.replace(old, new)` for non-empty `old`
(equal to `new.join(s.split(old))`). -/
def pyReplace (s old new : String) : String :=
  joinWith new (pySplit s old)

/-- The ASCII whitespace characters stripped by Python `str.strip()`. -/
def isPySpace (c : Char) : Bool :=
  c = ' ' || c = '\t' || c = '\n' || c = '\r' || c = '\x0b' || c = '\x0c'

/-- Python `s.strip()`. -/
def pyStrip (s : String) : String :=
  String.mk (((s.data.dropWhile isPySpace).reverse.dropWhile isPySpace).reverse)

/-- Python `s.lower()` (ASCII case folding, enough for the labels scanned). -/
def pyLower (s : String) : String :=
  String.mk (s.data.map Char.toLower)

/-- Python `s.startswith(p)`. -/
def pyStartswith (s p : String) : Bool :=
  p.data.isPrefixOf s.data

/-- Substring containment over character lists. -/
def containsChars : List Char → List Char → Bool
  | [], needle => needle.isEmpty
  | h :: hs, needle => needle.isPrefixOf (h :: hs) || containsChars hs needle

/-- Python `sub in s`. -/
def pyIn (sub s : String) : Bool :=
  containsChars s.data sub.data

/-- A retrieved document: `page_content` is the dedup key, metadata rides
along (identity is defined purely by `content` equality). -/
structure Document where
  content : String
  metadata : List (String × String)
deriving DecidableEq

/-- The `AgenticAstrologyState` TypedDict of `agentic_rag.py`. -/
structure AgenticAstrologyState where
  original_query : String
  decomposed_queries : List String
  search_round : Nat
  all_retrieved_docs : List Document
  current_context : String
  intermediate_answers : List String
  final_answer : String
  confidence : String
  reasoning_trace : List String
  max_search_rounds : Nat
deriving DecidableEq

/-- Contents of a document list, in order. -/
def contents (docs : List Document) : List String :=
  docs.map Document.content

/-- No two entries of the list have equal `content`. -/
def ContentNodup (docs : List Document) : Prop :=
  (contents docs).Nodup

instance (docs : List Document) : Decidable (ContentNodup docs) := by
  unfold ContentNodup; infer_instance

/-- The `seen`-set filter of `multi_retrieve`: keep the first occurrence of
each content, skipping any content already in `seen`. -/
def dedupAux : List Document → List String → List Document
  | [], _ => []
  | d :: ds, seen =>
    if d.content ∈ seen then dedupAux ds seen
    else d :: dedupAux ds (d.content :: seen)

/-- The `seen` set after running `dedupAux` over a list. -/
def seenAfter : List Document → List String → List String
  | [], seen => seen
  | d :: ds, seen =>
    if d.content ∈ seen then seenAfter ds seen
    else seenAfter ds (d.content :: seen)

/-- The numbered context blocks `[Source i]\n<content>` of `multi_retrieve`
and `retrieve_documents`, numbering from `i`. -/
def contextBlocks : Nat → List Document → List String
  | _, [] => []
  | i, d :: ds => ("[Source " ++ toString i ++ "]\n" ++ d.content) :: contextBlocks (i + 1) ds

/-- Context rendering: every document numbered 1..N as a labeled block,
joined by the fixed separator. -/
def renderContext (docs : List Document) : String :=
  joinWith "\n\n---\n\n" (contextBlocks 1 docs)

/-- Lines of the completion that carry the `Q:` marker after stripping
(the filter of `decompose_query`). -/
def qLineFilter (content : String) : List String :=
  (pySplit content "\n").filter (fun line => pyStartswith (pyStrip line) "Q:")

/-- Sub-query parsing of `decompose_query`: strip the marker from every
marker line; fall back to `[original_query]` when no line parses. -/
def parseSubqueries (content original_query : String) : List String :=
  let queries := (qLineFilter content).map (fun line => pyStrip (pyReplace line "Q:" ""))
  if queries.isEmpty then [original_query] else queries

/-- Answer extraction of `generate_with_confidence`: text before the first
`CONFIDENCE:` sentinel, with `ANSWER:` removed and whitespace stripped. -/
def parseAnswer (content : String) : String :=
  pyStrip (pyReplace ((pySplit content "CONFIDENCE:").headD content) "ANSWER:" "")

/-- Confidence extraction of `generate_with_confidence`: `parts[1]` of the
split on `CONFIDENCE:` is lowered and scanned for `high` then `medium`;
it defaults to `medium` only when the sentinel is absent, and to `low`
when the sentinel is present but neither label occurs. -/
def parseConfidence (content : String) : String :=
  match pySplit content "CONFIDENCE:" with
  | _ :: part1 :: _ =>
    let conf_text := pyLower part1
    if pyIn "high" conf_text then "high"
    else if pyIn "medium" conf_text then "medium"
    else "low"
  | _ => "medium"

/-- NODE 1 `decompose_query`: parse sub-queries from the completion, or on
collaborator failure fall back to the original query; trace either way. -/
def decompose_query (resp : Except String String) (s : AgenticAstrologyState) :
    AgenticAstrologyState :=
  match resp with
  | .ok content =>
    let queries := parseSubqueries content s.original_query
    { s with
      decomposed_queries := queries,
      reasoning_trace := s.reasoning_trace ++
        ["Decomposed into " ++ toString queries.length ++ " sub-queries"] }
  | .error e =>
    { s with
      decomposed_queries := [s.original_query],
      reasoning_trace := s.reasoning_trace ++ ["Decomposition failed: " ++ e] }

/-- NODE 2 `multi_retrieve`: on success, retrieve per sub-query, keep the
first occurrence of each content within the batch, append to the prior
documents, dedup the combination, rebuild the context and increment the
round; on collaborator failure, only append a trace entry. -/
def multi_retrieve (resp : Except String (String → List Document))
    (s : AgenticAstrologyState) : AgenticAstrologyState :=
  match resp with
  | .ok retriever =>
    let all_docs := dedupAux ((s.decomposed_queries.map retriever).flatten) []
    let combined := s.all_retrieved_docs ++ all_docs
    let unique_docs := dedupAux combined []
    let context := renderContext unique_docs
    { s with
      all_retrieved_docs := unique_docs,
      current_context := context,
      search_round := s.search_round + 1,
      reasoning_trace := s.reasoning_trace ++
        ["Multi-hop retrieval: " ++ toString all_docs.length ++ " new docs, " ++
          toString unique_docs.length ++ " total"] }
  | .error e =>
    { s with reasoning_trace := s.reasoning_trace ++ ["Retrieval failed: " ++ e] }

/-- NODE 3 `generate_with_confidence`: parse answer and confidence from the
completion; on collaborator failure, a failure message with `low`
confidence. -/
def generate_with_confidence (resp : Except String String)
    (s : AgenticAstrologyState) : AgenticAstrologyState :=
  match resp with
  | .ok content =>
    let answer := parseAnswer content
    let conf := parseConfidence content
    { s with
      final_answer := answer,
      confidence := conf,
      reasoning_trace := s.reasoning_trace ++
        ["Generated answer with " ++ conf ++ " confidence"] }
  | .error e =>
    { s with
      final_answer := "Unable to generate answer: " ++ e,
      confidence := "low",
      reasoning_trace := s.reasoning_trace ++ ["Generation failed: " ++ e] }

/-- The routing function `confidence_router` of `agentic_rag.py`,
with its guards in source order. -/
def confidence_router (s : AgenticAstrologyState) : String :=
  if s.confidence = "high" then "end"
  else if s.search_round ≥ s.max_search_rounds then "end"
  else if s.confidence = "medium" then "refine"
  else if s.search_round < s.max_search_rounds then "search_again"
  else "end"

/-- NODE `refine_answer`: on success, replace the answer, promote
confidence to `high` and trace; on collaborator failure, return the state
unchanged (the source's except branch is `return state`). -/
def refine_answer (resp : Except String String) (s : AgenticAstrologyState) :
    AgenticAstrologyState :=
  match resp with
  | .ok refined =>
    { s with
      final_answer := refined,
      confidence := "high",
      reasoning_trace := s.reasoning_trace ++ ["Refined answer for better clarity"] }
  | .error _ => s

/-- The initial state built by `run_agentic_rag`. -/
def initAgenticState (query : String) (max_search_rounds : Nat) :
    AgenticAstrologyState :=
  { original_query := query
    decomposed_queries := []
    search_round := 0
    all_retrieved_docs := []
    current_context := ""
    intermediate_answers := []
    final_answer := ""
    confidence := "low"
    reasoning_trace := ["Agentic RAG pipeline started"]
    max_search_rounds := max_search_rounds }

/-- A state carrying exactly the three fields the router reads. -/
def mkRouterState (confidence : String) (round limit : Nat) :
    AgenticAstrologyState :=
  { initAgenticState "" limit with confidence := confidence, search_round := round }

/-- The nodes of the compiled graph of `build_agentic_rag_graph`
(`terminal` stands for `END`). -/
inductive Node where
  | decompose
  | retrieve
  | generate
  | refine
  | terminal
deriving DecidableEq

/-- One collaborator environment for a run: the decomposition completion,
a retriever per round, a generation completion per round, and the
refinement completion. -/
structure Oracle where
  decompOracle : Except String String
  retrOracle : Nat → Except String (String → List Document)
  genOracle : Nat → Except String String
  refineOracle : Except String String

/-- The string-keyed dispatch table of the conditional edge out of
`generate`. -/
def routeTarget (r : String) : Node :=
  if r = "refine" then Node.refine
  else if r = "search_again" then Node.retrieve
  else Node.terminal

/-- Fuel-bounded execution of the compiled graph, following the edges of
`build_agentic_rag_graph`, returning the node reached, the state, and the
number of executions of the retrieval node. -/
def runGraph (o : Oracle) : Nat → Node → AgenticAstrologyState → Nat →
    Node × AgenticAstrologyState × Nat
  | 0, n, s, c => (n, s, c)
  | _ + 1, Node.terminal, s, c => (Node.terminal, s, c)
  | fuel + 1, Node.decompose, s, c =>
    runGraph o fuel Node.retrieve (decompose_query o.decompOracle s) c
  | fuel + 1, Node.retrieve, s, c =>
    runGraph o fuel Node.generate (multi_retrieve (o.retrOracle s.search_round) s) (c + 1)
  | fuel + 1, Node.generate, s, c =>
    let t := generate_with_confidence (o.genOracle s.search_round) s
    runGraph o fuel (routeTarget (confidence_router t)) t c
  | fuel + 1, Node.refine, s, c =>
    runGraph o fuel Node.terminal (refine_answer o.refineOracle s) c

/-- The `AstrologyRAGState` TypedDict of `langgraph_rag.py`
(Python `float` confidence modelled as a rational). -/
structure AstrologyRAGState where
  query : String
  retrieved_docs : List Document
  context : String
  answer : String
  confidence_score : Rat
  is_grounded : Bool
  retry_count : Int
  all_context_used : Bool
  metadata : List (String × Int)
deriving DecidableEq

/-- NODE 1 `analyze_query` of `langgraph_rag.py`: pass-through. -/
def analyze_query (s : AstrologyRAGState) : AstrologyRAGState := s

/-- NODE 2 `retrieve_documents` of `langgraph_rag.py`: on success, store the
retrieved documents and the rendered context; on failure, an error
placeholder context and empty documents. -/
def retrieve_documents (resp : Except String (List Document))
    (s : AstrologyRAGState) : AstrologyRAGState :=
  match resp with
  | .ok docs => { s with retrieved_docs := docs, context := renderContext docs }
  | .error _ =>
    { s with
      context := "Error retrieving documents. Generating response from base knowledge.",
      retrieved_docs := [] }

/-- NODE 3 `generate_reading` of `langgraph_rag.py`. -/
def generate_reading (resp : Except String String) (s : AstrologyRAGState) :
    AstrologyRAGState :=
  match resp with
  | .ok ans => { s with answer := ans }
  | .error e => { s with answer := "Unable to generate reading: " ++ e }

/-- Outcome of the grounding-check collaborator call in `self_check`:
the call fails, or the reply parses as JSON (carrying the extracted
groundedness flag and confidence, with the source's `.get` defaults
already applied), or the reply is not valid JSON. -/
inductive SelfCheckResp where
  | collabError (e : String)
  | jsonOk (is_grounded : Bool) (confidence : Rat)
  | jsonBad (content : String)

/-- NODE 4 `self_check` of `langgraph_rag.py`: short-circuit when no
documents were retrieved; otherwise take the parsed JSON verdict, fall
back to the keyword heuristic on a JSON decode error, and to the fixed
mid-range verdict on collaborator failure. -/
def self_check (resp : SelfCheckResp) (s : AstrologyRAGState) :
    AstrologyRAGState :=
  if s.retrieved_docs.isEmpty then
    { s with is_grounded := false, confidence_score := (5 : Rat)/10, all_context_used := true }
  else
    match resp with
    | .jsonOk g conf =>
      { s with is_grounded := g, confidence_score := conf, all_context_used := true }
    | .jsonBad content =>
      { s with
        is_grounded := pyIn "ground" (pyLower content),
        confidence_score := (6 : Rat)/10,
        all_context_used := true }
    | .collabError _ =>
      { s with is_grounded := false, confidence_score := (5 : Rat)/10, all_context_used := true }

/-- The conditional edge `decide_next_step` of `langgraph_rag.py`,
with its guards in source order. -/
def decide_next_step (s : AstrologyRAGState) : String :=
  if s.confidence_score ≥ (7 : Rat)/10 then "end"
  else if s.retry_count ≥ 2 then "end"
  else if s.all_context_used ∧ s.confidence_score < (7 : Rat)/10 then "retrieve_more"
  else "end"

/-- The routing of `decide_next_step` with the max-retries stop rule
removed; agreeing with `decide_next_step` on a state exactly when that
rule does not fire there. -/
def decide_next_step_noRetryStop (s : AstrologyRAGState) : String :=
  if s.confidence_score ≥ (7 : Rat)/10 then "end"
  else if s.all_context_used ∧ s.confidence_score < (7 : Rat)/10 then "retrieve_more"
  else "end"

/-- The initial state built by `run_astrology_rag`. -/
def initLangState (query : String) (max_retries : Int) : AstrologyRAGState :=
  { query := query
    retrieved_docs := []
    context := ""
    answer := ""
    confidence_score := 0
    is_grounded := false
    retry_count := 0
    all_context_used := false
    metadata := [("max_retries", max_retries)] }

/-- The projection returned by `run_astrology_rag`. -/
structure LangOutput where
  query : String
  answer : String
  confidence : Rat
  grounded : Bool
  sources_count : Nat
  retries : Int
deriving DecidableEq

/-- The output dictionary of `run_astrology_rag` as a function of the final
state. -/
def langProjection (s : AstrologyRAGState) : LangOutput :=
  { query := s.query
    answer := s.answer
    confidence := s.confidence_score
    grounded := s.is_grounded
    sources_count := s.retrieved_docs.length
    retries := s.retry_count }

/-- One node execution of the `langgraph_rag.py` graph, for arbitrary
collaborator outcomes. -/
inductive LangStep : AstrologyRAGState → AstrologyRAGState → Prop where
  | analyze (s : AstrologyRAGState) : LangStep s (analyze_query s)
  | retrieve (s : AstrologyRAGState) (resp : Except String (List Document)) :
      LangStep s (retrieve_documents resp s)
  | generate (s : AstrologyRAGState) (resp : Except String String) :
      LangStep s (generate_reading resp s)
  | selfCheck (s : AstrologyRAGState) (resp : SelfCheckResp) :
      LangStep s (self_check resp s)

/-- A concrete state for the retrieval-failure counterexample: one round
already completed, one document accumulated. -/
def exRetrievalState : AgenticAstrologyState :=
  { initAgenticState "q" 3 with
    search_round := 1
    all_retrieved_docs := [⟨"first fact", []⟩]
    current_context := "[Source 1]\nfirst fact" }

/-- A concrete state for the refinement-failure counterexample. -/
def exRefineState : AgenticAstrologyState :=
  { initAgenticState "q" 3 with
    final_answer := "previous answer"
    confidence := "medium" }

/-- A collaborator environment in which every call fails. -/
def failOracle : Oracle :=
  { decompOracle := Except.error "down"
    retrOracle := fun _ => Except.error "down"
    genOracle := fun _ => Except.error "down"
    refineOracle := Except.error "down" }

/-- A collaborator environment in which decomposition and retrieval
succeed and generation always self-reports an unrecognized confidence
label, which parses to `low`. -/
def lowOracle : Oracle :=
  { decompOracle := Except.ok "Q: first sub-query"
    retrOracle := fun _ => Except.ok (fun _ => [⟨"a fact", []⟩])
    genOracle := fun _ => Except.ok "some answer CONFIDENCE: none to speak of"
    refineOracle := Except.ok "refined" }

/-- A concrete state for the dedup witness: one accumulated document. -/
def exDedupState : AgenticAstrologyState :=
  { initAgenticState "q" 3 with
    decomposed_queries := ["sub one"]
    all_retrieved_docs := [⟨"known fact", [("source", "a")]⟩] }

/-- A retriever returning an already-present content under different
metadata. -/
def exDedupRetriever : String → List Document :=
  fun _ => [⟨"known fact", [("source", "b")]⟩]

/-! ## Helper lemmas -/

theorem multi_retrieve_ok_search_round (f : String → List Document)
    (s : AgenticAstrologyState) :
    (multi_retrieve (Except.ok f) s).search_round = s.search_round + 1 := rfl

theorem multi_retrieve_ok_max (f : String → List Document)
    (s : AgenticAstrologyState) :
    (multi_retrieve (Except.ok f) s).max_search_rounds = s.max_search_rounds := rfl

theorem generate_search_round (resp : Except String String)
    (s : AgenticAstrologyState) :
    (generate_with_confidence resp s).search_round = s.search_round := by
  cases resp <;> rfl

theorem generate_max (resp : Except String String) (s : AgenticAstrologyState) :
    (generate_with_confidence resp s).max_search_rounds = s.max_search_rounds := by
  cases resp <;> rfl

theorem decompose_search_round (resp : Except String String)
    (s : AgenticAstrologyState) :
    (decompose_query resp s).search_round = s.search_round := by
  cases resp <;> rfl

theorem decompose_max (resp : Except String String) (s : AgenticAstrologyState) :
    (decompose_query resp s).max_search_rounds = s.max_search_rounds := by
  cases resp <;> rfl

theorem mkRouterState_confidence (c : String) (r L : Nat) :
    (mkRouterState c r L).confidence = c := rfl

theorem mkRouterState_round (c : String) (r L : Nat) :
    (mkRouterState c r L).search_round = r := rfl

theorem mkRouterState_max (c : String) (r L : Nat) :
    (mkRouterState c r L).max_search_rounds = L := rfl

theorem confidence_router_low_again (s : AgenticAstrologyState)
    (h1 : s.confidence = "low") (h2 : s.search_round < s.max_search_rounds) :
    confidence_router s = "search_again" := by
  unfold confidence_router
  rw [h1]
  rw [if_neg (by decide), if_neg (Nat.not_le.mpr h2), if_neg (by decide), if_pos h2]

theorem confidence_router_low_end (s : AgenticAstrologyState)
    (h1 : s.confidence = "low") (h2 : s.max_search_rounds ≤ s.search_round) :
    confidence_router s = "end" := by
  unfold confidence_router
  rw [h1]
  rw [if_neg (by decide), if_pos h2]

theorem mem_of_mem_dedupAux {d : Document} :
    ∀ (l : List Document) (seen : List String), d ∈ dedupAux l seen → d ∈ l := by
  intro l
  induction l with
  | nil => intro seen h; exact absurd h (List.not_mem_nil d)
  | cons x xs ih =>
    intro seen h
    unfold dedupAux at h
    by_cases hx : x.content ∈ seen
    · rw [if_pos hx] at h
      exact List.mem_cons_of_mem x (ih seen h)
    · rw [if_neg hx] at h
      rcases List.mem_cons.mp h with h1 | h2
      · exact h1 ▸ List.mem_cons_self x xs
      · exact List.mem_cons_of_mem x (ih _ h2)

theorem content_not_mem_seen {d : Document} :
    ∀ (l : List Document) (seen : List String),
      d ∈ dedupAux l seen → d.content ∉ seen := by
  intro l
  induction l with
  | nil => intro seen h; exact absurd h (List.not_mem_nil d)
  | cons x xs ih =>
    intro seen h
    unfold dedupAux at h
    by_cases hx : x.content ∈ seen
    · rw [if_pos hx] at h
      exact ih seen h
    · rw [if_neg hx] at h
      rcases List.mem_cons.mp h with h1 | h2
      · exact h1 ▸ hx
      · intro hmem
        exact ih _ h2 (List.mem_cons_of_mem _ hmem)

theorem contentNodup_dedupAux :
    ∀ (l : List Document) (seen : List String), ContentNodup (dedupAux l seen) := by
  intro l
  induction l with
  | nil => intro seen; exact List.nodup_nil
  | cons x xs ih =>
    intro seen
    unfold dedupAux
    by_cases hx : x.content ∈ seen
    · rw [if_pos hx]; exact ih seen
    · rw [if_neg hx]
      unfold ContentNodup contents
      rw [List.map_cons, List.nodup_cons]
      refine ⟨?_, ih (x.content :: seen)⟩
      intro hmem
      rcases List.mem_map.mp hmem with ⟨y, hy, hyc⟩
      exact content_not_mem_seen _ _ hy (hyc ▸ List.mem_cons_self x.content seen)

theorem dedupAux_append (l1 l2 : List Document) :
    ∀ seen : List String,
      dedupAux (l1 ++ l2) seen = dedupAux l1 seen ++ dedupAux l2 (seenAfter l1 seen) := by
  induction l1 with
  | nil => intro seen; rfl
  | cons x xs ih =>
    intro seen
    by_cases hx : x.content ∈ seen
    · simp only [List.cons_append, dedupAux, seenAfter, if_pos hx]
      exact ih seen
    · simp only [List.cons_append, dedupAux, seenAfter, if_neg hx]
      exact congrArg (List.cons x) (ih (x.content :: seen))

theorem mem_seenAfter (x : String) :
    ∀ (l : List Document) (seen : List String),
      x ∈ seenAfter l seen ↔ x ∈ seen ∨ x ∈ contents l := by
  intro l
  induction l with
  | nil => intro seen; simp [seenAfter, contents]
  | cons d ds ih =>
    intro seen
    unfold seenAfter contents
    rw [List.map_cons]
    by_cases hd : d.content ∈ seen
    · rw [if_pos hd, ih]
      constructor
      · rintro (h | h)
        · exact Or.inl h
        · exact Or.inr (List.mem_cons_of_mem _ h)
      · rintro (h | h)
        · exact Or.inl h
        · rcases List.mem_cons.mp h with h1 | h2
          · exact Or.inl (h1 ▸ hd)
          · exact Or.inr h2
    · rw [if_neg hd, ih]
      constructor
      · rintro (h | h)
        · rcases List.mem_cons.mp h with h1 | h2
          · exact Or.inr (List.mem_cons.mpr (Or.inl h1))
          · exact Or.inl h2
        · exact Or.inr (List.mem_cons_of_mem _ h)
      · rintro (h | h)
        · exact Or.inl (List.mem_cons_of_mem _ h)
        · rcases List.mem_cons.mp h with h1 | h2
          · exact Or.inl (List.mem_cons.mpr (Or.inl h1))
          · exact Or.inr h2

theorem dedupAux_eq_self :
    ∀ (l : List Document) (seen : List String), ContentNodup l →
      (∀ d ∈ l, d.content ∉ seen) → dedupAux l seen = l := by
  intro l
  induction l with
  | nil => intro seen _ _; rfl
  | cons x xs ih =>
    intro seen hnodup hdisj
    unfold dedupAux
    rw [if_neg (hdisj x (List.mem_cons_self x xs))]
    unfold ContentNodup contents at hnodup
    rw [List.map_cons, List.nodup_cons] at hnodup
    congr 1
    refine ih _ hnodup.2 ?_
    intro d hd hmem
    rcases List.mem_cons.mp hmem with h1 | h2
    · exact hnodup.1 (h1 ▸ List.mem_map_of_mem Document.content hd)
    · exact hdisj d (List.mem_cons_of_mem x hd) h2

theorem dedupAux_eq_nil :
    ∀ (l : List Document) (seen : List String),
      (∀ d ∈ l, d.content ∈ seen) → dedupAux l seen = [] := by
  intro l
  induction l with
  | nil => intro seen _; rfl
  | cons x xs ih =>
    intro seen hall
    unfold dedupAux
    rw [if_pos (hall x (List.mem_cons_self x xs))]
    exact ih seen (fun d hd => hall d (List.mem_cons_of_mem x hd))

theorem multi_retrieve_ok_docs (f : String → List Document)
    (s : AgenticAstrologyState) :
    (multi_retrieve (Except.ok f) s).all_retrieved_docs =
      dedupAux (s.all_retrieved_docs ++
        dedupAux ((s.decomposed_queries.map f).flatten) []) [] := rfl

theorem runGraph_terminal (o : Oracle) (fuel : Nat) (s : AgenticAstrologyState)
    (c : Nat) : runGraph o fuel Node.terminal s c = (Node.terminal, s, c) := by
  cases fuel <;> rfl

/-! ## Claim C1: the router decision table -/

/-- C1: `confidence_router` is a pure function of the confidence label, the
round count and the round limit, and it satisfies the spec's decision
table evaluated in order: `high` ends for every round at or below the
limit, a round count at the limit ends regardless of the label, `medium`
below the limit refines, and `low` below the limit retrieves again
(`"end"`, `"refine"`, `"search_again"` being the source's names for
TERMINATE, REFINE, RETRIEVE_AGAIN). -/
theorem c1_router_table :
    (∀ s t : AgenticAstrologyState, s.confidence = t.confidence →
      s.search_round = t.search_round → s.max_search_rounds = t.max_search_rounds →
      confidence_router s = confidence_router t) ∧
    (∀ r L : Nat, r ≤ L → confidence_router (mkRouterState "high" r L) = "end") ∧
    (∀ (c : String) (L : Nat), confidence_router (mkRouterState c L L) = "end") ∧
    (∀ r L : Nat, r < L → confidence_router (mkRouterState "medium" r L) = "refine") ∧
    (∀ r L : Nat, r < L → confidence_router (mkRouterState "low" r L) = "search_again") := by
  refine ⟨?_, ?_, ?_, ?_, ?_⟩
  · intro s t h1 h2 h3
    unfold confidence_router
    rw [h1, h2, h3]
  · intro r L _
    rfl
  · intro c L
    unfold confidence_router
    rw [mkRouterState_confidence, mkRouterState_round, mkRouterState_max]
    by_cases hc : c = "high"
    · rw [if_pos hc]
    · rw [if_neg hc, if_pos (le_refl L)]
  · intro r L h
    unfold confidence_router
    rw [mkRouterState_confidence, mkRouterState_round, mkRouterState_max]
    rw [if_neg (by decide), if_neg (Nat.not_le.mpr h), if_pos rfl]
  · intro r L h
    exact confidence_router_low_again _ rfl h

/-- Witness for C1: the table rows evaluated at concrete rounds and limits. -/
theorem c1_router_table_witness :
    confidence_router (mkRouterState "high" 2 3) = "end" ∧
    confidence_router (mkRouterState "medium" 1 3) = "refine" ∧
    confidence_router (mkRouterState "low" 0 2) = "search_again" :=
  ⟨c1_router_table.2.1 2 3 (by decide),
   c1_router_table.2.2.2.1 1 3 (by decide),
   c1_router_table.2.2.2.2 0 2 (by decide)⟩

theorem lowLoop_aux (o : Oracle)
    (hgen : ∀ (n : Nat) (s : AgenticAstrologyState),
      (generate_with_confidence (o.genOracle n) s).confidence = "low")
    (hret : ∀ n : Nat, ∃ f, o.retrOracle n = Except.ok f) :
    ∀ (k : Nat) (s : AgenticAstrologyState) (c : Nat),
      s.search_round + (k + 1) = s.max_search_rounds →
      (runGraph o (2 * k + 2) Node.retrieve s c).1 = Node.terminal ∧
      (runGraph o (2 * k + 2) Node.retrieve s c).2.2 = c + (k + 1) := by
  intro k
  induction k with
  | zero =>
    intro s c hk
    obtain ⟨f, hf⟩ := hret s.search_round
    have e1 : runGraph o (2 * 0 + 2) Node.retrieve s c =
        runGraph o 1 Node.generate
          (multi_retrieve (o.retrOracle s.search_round) s) (c + 1) := rfl
    rw [e1, hf]
    set s1 := multi_retrieve (Except.ok f) s with hs1
    have e2 : runGraph o 1 Node.generate s1 (c + 1) =
        runGraph o 0 (routeTarget (confidence_router
          (generate_with_confidence (o.genOracle s1.search_round) s1)))
          (generate_with_confidence (o.genOracle s1.search_round) s1) (c + 1) := rfl
    rw [e2]
    set s2 := generate_with_confidence (o.genOracle s1.search_round) s1 with hs2
    have hround : s2.search_round = s.search_round + 1 := by
      rw [hs2, generate_search_round, hs1, multi_retrieve_ok_search_round]
    have hmax : s2.max_search_rounds = s.max_search_rounds := by
      rw [hs2, generate_max, hs1, multi_retrieve_ok_max]
    have hrt : confidence_router s2 = "end" := by
      apply confidence_router_low_end s2 (hs2 ▸ hgen s1.search_round s1)
      rw [hround, hmax]
      omega
    rw [hrt]
    exact ⟨rfl, rfl⟩
  | succ k ih =>
    intro s c hk
    obtain ⟨f, hf⟩ := hret s.search_round
    have e1 : runGraph o (2 * (k + 1) + 2) Node.retrieve s c =
        runGraph o (2 * k + 3) Node.generate
          (multi_retrieve (o.retrOracle s.search_round) s) (c + 1) := rfl
    rw [e1, hf]
    set s1 := multi_retrieve (Except.ok f) s with hs1
    have e2 : runGraph o (2 * k + 3) Node.generate s1 (c + 1) =
        runGraph o (2 * k + 2) (routeTarget (confidence_router
          (generate_with_confidence (o.genOracle s1.search_round) s1)))
          (generate_with_confidence (o.genOracle s1.search_round) s1) (c + 1) := rfl
    rw [e2]
    set s2 := generate_with_confidence (o.genOracle s1.search_round) s1 with hs2
    have hround : s2.search_round = s.search_round + 1 := by
      rw [hs2, generate_search_round, hs1, multi_retrieve_ok_search_round]
    have hmax : s2.max_search_rounds = s.max_search_rounds := by
      rw [hs2, generate_max, hs1, multi_retrieve_ok_max]
    have hrt : confidence_router s2 = "search_again" := by
      apply confidence_router_low_again s2 (hs2 ▸ hgen s1.search_round s1)
      rw [hround, hmax]
      omega
    rw [hrt]
    have hroute : routeTarget "search_again" = Node.retrieve := rfl
    rw [hroute]
    have hk2 : s2.search_round + (k + 1) = s2.max_search_rounds := by
      rw [hround, hmax]
      omega
    have hres := ih s2 (c + 1) hk2
    refine ⟨hres.1, ?_⟩
    rw [hres.2]
    omega

/-! ## Claim C2: bounded termination of the always-LOW loop -/

/-- C2 counterexample: with `round_limit = 1` and an always-LOW confidence
trajectory in which every collaborator call fails, the failed retrieval
passes never increment `search_round`, so after five graph steps the
retrieval node has already executed twice — more than `round_limit` —
and the run has not terminated. -/
theorem c2_counterexample :
    (runGraph failOracle 5 Node.decompose (initAgenticState "q" 1) 0).2.2 = 2 ∧
    (runGraph failOracle 5 Node.decompose (initAgenticState "q" 1) 0).1 ≠
      Node.terminal := by
  decide

/-- C2 amended: for every `round_limit ≥ 1`, a run whose confidence
assessment is always LOW and whose retrieval passes all succeed
terminates with the retrieval node executed exactly `round_limit` times;
the restriction to successful passes is forced because a failed pass does
not increment the round and therefore does not count toward the bound. -/
theorem c2_bounded_termination (L : Nat) (hL : 1 ≤ L) (q : String) (o : Oracle)
    (hgen : ∀ (n : Nat) (s : AgenticAstrologyState),
      (generate_with_confidence (o.genOracle n) s).confidence = "low")
    (hret : ∀ n : Nat, ∃ f, o.retrOracle n = Except.ok f) :
    (runGraph o (2 * L + 1) Node.decompose (initAgenticState q L) 0).1 =
      Node.terminal ∧
    (runGraph o (2 * L + 1) Node.decompose (initAgenticState q L) 0).2.2 = L := by
  obtain ⟨k, rfl⟩ : ∃ k, L = k + 1 := ⟨L - 1, by omega⟩
  have e1 : runGraph o (2 * (k + 1) + 1) Node.decompose (initAgenticState q (k + 1)) 0 =
      runGraph o (2 * k + 2) Node.retrieve
        (decompose_query o.decompOracle (initAgenticState q (k + 1))) 0 := rfl
  rw [e1]
  have h0 : (decompose_query o.decompOracle (initAgenticState q (k + 1))).search_round +
      (k + 1) =
      (decompose_query o.decompOracle (initAgenticState q (k + 1))).max_search_rounds := by
    rw [decompose_search_round, decompose_max]
    show 0 + (k + 1) = k + 1
    omega
  have hres := lowLoop_aux o hgen hret k _ 0 h0
  refine ⟨hres.1, ?_⟩
  rw [hres.2]
  omega

/-- Witness for C2 amended: two retrieval passes exactly, at limit 2, with
a collaborator environment whose generation always parses to `low` and
whose retrievals succeed. -/
theorem c2_bounded_termination_witness :
    (runGraph lowOracle (2 * 2 + 1) Node.decompose (initAgenticState "q" 2) 0).1 =
      Node.terminal ∧
    (runGraph lowOracle (2 * 2 + 1) Node.decompose (initAgenticState "q" 2) 0).2.2 = 2 :=
  c2_bounded_termination 2 (by decide) "q" lowOracle (fun _ _ => rfl)
    (fun _ => ⟨_, rfl⟩)

/-! ## Claim C3: content-keyed deduplication of the accumulator -/

/-- C3: after a successful retrieval pass the accumulated documents carry
no two equal contents, and a failed pass preserves that invariant; when
the prior documents carry no duplicate contents, the new documents equal
the prior sequence (original positions kept) with exactly the new unique
documents appended in retrieval order, each appended document's content
absent from the prior documents; and a pass whose retrieved contents are
all already present leaves the documents sequence unchanged in length and
order. -/
theorem c3_dedup_invariant :
    (∀ (f : String → List Document) (s : AgenticAstrologyState),
      ContentNodup (multi_retrieve (Except.ok f) s).all_retrieved_docs) ∧
    (∀ (e : String) (s : AgenticAstrologyState),
      ContentNodup s.all_retrieved_docs →
      ContentNodup (multi_retrieve (Except.error e) s).all_retrieved_docs) ∧
    (∀ (f : String → List Document) (s : AgenticAstrologyState),
      ContentNodup s.all_retrieved_docs →
      (multi_retrieve (Except.ok f) s).all_retrieved_docs =
        s.all_retrieved_docs ++
          dedupAux (dedupAux ((s.decomposed_queries.map f).flatten) [])
            (seenAfter s.all_retrieved_docs [])) ∧
    (∀ (f : String → List Document) (s : AgenticAstrologyState)
      (d : Document),
      d ∈ dedupAux (dedupAux ((s.decomposed_queries.map f).flatten) [])
            (seenAfter s.all_retrieved_docs []) →
      d.content ∉ contents s.all_retrieved_docs) ∧
    (∀ (f : String → List Document) (s : AgenticAstrologyState),
      ContentNodup s.all_retrieved_docs →
      (∀ d ∈ (s.decomposed_queries.map f).flatten,
        d.content ∈ contents s.all_retrieved_docs) →
      (multi_retrieve (Except.ok f) s).all_retrieved_docs = s.all_retrieved_docs) := by
  have key : ∀ (f : String → List Document) (s : AgenticAstrologyState),
      ContentNodup s.all_retrieved_docs →
      (multi_retrieve (Except.ok f) s).all_retrieved_docs =
        s.all_retrieved_docs ++
          dedupAux (dedupAux ((s.decomposed_queries.map f).flatten) [])
            (seenAfter s.all_retrieved_docs []) := by
    intro f s hnodup
    rw [multi_retrieve_ok_docs, dedupAux_append,
      dedupAux_eq_self s.all_retrieved_docs [] hnodup
        (by intro d _ h; exact List.not_mem_nil d.content h)]
  refine ⟨?_, ?_, key, ?_, ?_⟩
  · intro f s
    rw [multi_retrieve_ok_docs]
    exact contentNodup_dedupAux _ _
  · intro e s h
    exact h
  · intro f s d hd hmem
    exact content_not_mem_seen _ _ hd ((mem_seenAfter d.content _ _).mpr (Or.inr hmem))
  · intro f s hnodup hall
    rw [key f s hnodup, dedupAux_eq_nil, List.append_nil]
    intro d hd
    exact (mem_seenAfter d.content _ _).mpr
      (Or.inr (hall d (mem_of_mem_dedupAux _ _ hd)))

/-- Witness for C3: retrieving a content that is already accumulated
(under different metadata) leaves the documents sequence unchanged. -/
theorem c3_dedup_invariant_witness :
    (multi_retrieve (Except.ok exDedupRetriever) exDedupState).all_retrieved_docs =
      exDedupState.all_retrieved_docs :=
  c3_dedup_invariant.2.2.2.2 exDedupRetriever exDedupState (by decide) (by decide)

/-! ## Claim C4: the context is a pure render of the documents -/

/-- C4: after a successful retrieval pass the stored context equals the
deterministic re-render (`renderContext`, numbering every document 1..N
as a labeled block joined by the fixed separator) of the stored documents
— the context is rebuilt from the post-merge sequence, never patched; a
failed pass changes neither field, preserving the same equation. -/
theorem c4_context_purity :
    (∀ (f : String → List Document) (s : AgenticAstrologyState),
      (multi_retrieve (Except.ok f) s).current_context =
        renderContext (multi_retrieve (Except.ok f) s).all_retrieved_docs) ∧
    (∀ (e : String) (s : AgenticAstrologyState),
      s.current_context = renderContext s.all_retrieved_docs →
      (multi_retrieve (Except.error e) s).current_context =
        renderContext (multi_retrieve (Except.error e) s).all_retrieved_docs) := by
  constructor
  · intro f s
    rfl
  · intro e s h
    exact h

/-- Witness for C4: both conjuncts at concrete inputs — the render
equation after a successful pass, and its preservation across a failed
pass starting from the initial state. -/
theorem c4_context_purity_witness :
    (multi_retrieve (Except.ok exDedupRetriever) exDedupState).current_context =
      renderContext (multi_retrieve (Except.ok exDedupRetriever)
        exDedupState).all_retrieved_docs ∧
    (multi_retrieve (Except.error "boom") (initAgenticState "q" 3)).current_context =
      renderContext (multi_retrieve (Except.error "boom")
        (initAgenticState "q" 3)).all_retrieved_docs :=
  ⟨c4_context_purity.1 exDedupRetriever exDedupState,
   c4_context_purity.2 "boom" (initAgenticState "q" 3) (by decide)⟩

/-! ## Claim C5: state on retrieval-collaborator failure -/

/-- C5 counterexample: on a failed retrieval pass the source's except
branch leaves `search_round` unchanged, so the claim that a failed pass
still increments `round` exactly once is false at this concrete state
(round 1 stays 1 instead of becoming 2). -/
theorem c5_counterexample :
    (multi_retrieve (Except.error "boom") exRetrievalState).search_round ≠
      exRetrievalState.search_round + 1 := by
  decide

/-- C5 amended: when the retrieval collaborator fails, the resulting state
keeps documents and context exactly as in the prior round, appends the
failure entry to the trace, leaves answer and confidence alone, and the
run continues; but the round counter is NOT incremented — only successful
retrieval passes increment it. -/
theorem c5_retrieval_failure_state (e : String) (s : AgenticAstrologyState) :
    (multi_retrieve (Except.error e) s).all_retrieved_docs = s.all_retrieved_docs ∧
    (multi_retrieve (Except.error e) s).current_context = s.current_context ∧
    (multi_retrieve (Except.error e) s).search_round = s.search_round ∧
    (multi_retrieve (Except.error e) s).reasoning_trace =
      s.reasoning_trace ++ ["Retrieval failed: " ++ e] ∧
    (multi_retrieve (Except.error e) s).final_answer = s.final_answer ∧
    (multi_retrieve (Except.error e) s).confidence = s.confidence :=
  ⟨rfl, rfl, rfl, rfl, rfl, rfl⟩

/-! ## Claim C6: state on refinement-collaborator failure -/

/-- C6 counterexample: on refinement failure the source returns the state
unchanged, so no failure entry is appended to the trace at this concrete
state — the trace does not grow, contradicting the claim. -/
theorem c6_counterexample :
    ¬ (exRefineState.reasoning_trace.length <
        (refine_answer (Except.error "boom") exRefineState).reasoning_trace.length) := by
  decide

/-- C6 amended: when the refinement collaborator fails, the prior answer
and prior confidence are returned unchanged and no error state is
produced (the function is total), but the failure is NOT recorded in the
trace — the whole state is returned unchanged. -/
theorem c6_refine_failure_state (e : String) (s : AgenticAstrologyState) :
    (refine_answer (Except.error e) s).final_answer = s.final_answer ∧
    (refine_answer (Except.error e) s).confidence = s.confidence ∧
    (refine_answer (Except.error e) s).reasoning_trace = s.reasoning_trace :=
  ⟨rfl, rfl, rfl⟩

/-! ## Claim C7: generator confidence parsing -/

/-- C7 counterexample: when the `CONFIDENCE:` sentinel is present but its
text matches no expected label, the parsed confidence is `low`, not the
claimed middle label `medium`. -/
theorem c7_counterexample :
    parseConfidence "ANSWER: x\nCONFIDENCE: banana" = "low" ∧
    ("low" : String) ≠ "medium" := by
  decide

/-- C7 amended: parsing splits on the sentinel and never raises (the
result is always one of the three labels); the default `medium` applies
only when the sentinel is absent; when the sentinel is present, the text
after it is lowered and scanned for `high` then `medium`, and a text
matching neither label yields `low` — not `medium`. -/
theorem c7_confidence_default :
    (∀ content : String, (pySplit content "CONFIDENCE:").length ≤ 1 →
      parseConfidence content = "medium") ∧
    (∀ content : String, parseConfidence content = "high" ∨
      parseConfidence content = "medium" ∨ parseConfidence content = "low") ∧
    (∀ (content p0 p1 : String) (rest : List String),
      pySplit content "CONFIDENCE:" = p0 :: p1 :: rest →
      pyIn "high" (pyLower p1) = true →
      parseConfidence content = "high") ∧
    (∀ (content p0 p1 : String) (rest : List String),
      pySplit content "CONFIDENCE:" = p0 :: p1 :: rest →
      pyIn "high" (pyLower p1) = false → pyIn "medium" (pyLower p1) = true →
      parseConfidence content = "medium") ∧
    (∀ (content p0 p1 : String) (rest : List String),
      pySplit content "CONFIDENCE:" = p0 :: p1 :: rest →
      pyIn "high" (pyLower p1) = false → pyIn "medium" (pyLower p1) = false →
      parseConfidence content = "low") := by
  refine ⟨?_, ?_, ?_, ?_, ?_⟩
  · intro content h
    unfold parseConfidence
    rcases hs : pySplit content "CONFIDENCE:" with _ | ⟨p0, _ | ⟨p1, rest⟩⟩
    · rfl
    · rfl
    · rw [hs] at h
      simp at h
  · intro content
    unfold parseConfidence
    rcases pySplit content "CONFIDENCE:" with _ | ⟨p0, _ | ⟨p1, rest⟩⟩
    · exact Or.inr (Or.inl rfl)
    · exact Or.inr (Or.inl rfl)
    · dsimp only
      by_cases h1 : pyIn "high" (pyLower p1) = true
      · rw [if_pos h1]
        exact Or.inl rfl
      · rw [if_neg h1]
        by_cases h2 : pyIn "medium" (pyLower p1) = true
        · rw [if_pos h2]
          exact Or.inr (Or.inl rfl)
        · rw [if_neg h2]
          exact Or.inr (Or.inr rfl)
  · intro content p0 p1 rest hs h1
    unfold parseConfidence
    rw [hs]
    dsimp only
    exact if_pos h1
  · intro content p0 p1 rest hs h1 h2
    unfold parseConfidence
    rw [hs]
    dsimp only
    rw [if_neg (by rw [h1]; exact Bool.false_ne_true), if_pos h2]
  · intro content p0 p1 rest hs h1 h2
    unfold parseConfidence
    rw [hs]
    dsimp only
    rw [if_neg (by rw [h1]; exact Bool.false_ne_true),
      if_neg (by rw [h2]; exact Bool.false_ne_true)]

/-- Witness for C7: the missing-sentinel default, and the unrecognized
label case, at concrete completions. -/
theorem c7_confidence_default_witness :
    parseConfidence "no sentinel at all" = "medium" ∧
    parseConfidence "CONFIDENCE: utterly unknown" = "low" :=
  ⟨c7_confidence_default.1 "no sentinel at all" (by decide),
   c7_confidence_default.2.2.2.2 "CONFIDENCE: utterly unknown" "" " utterly unknown" []
     (by decide) (by decide) (by decide)⟩

/-! ## Claim C8: decomposer output -/

/-- C8 counterexample: the parser accepts every marker line without any
cap, so a completion with five `Q:` lines yields five sub-queries,
contradicting the claimed upper bound of 4. -/
theorem c8_counterexample :
    (parseSubqueries "Q: a\nQ: b\nQ: c\nQ: d\nQ: e" "orig").length = 5 ∧
    ¬ ((parseSubqueries "Q: a\nQ: b\nQ: c\nQ: d\nQ: e" "orig").length ≤ 4) := by
  decide

/-- C8 amended: the decomposer always returns a non-empty ordered
sequence: when zero lines carry the marker the result is exactly the
original query, and on collaborator failure the result is likewise the
original query with the failure appended to the trace; but the length is
bounded below by 1 only — no upper bound of 4 is enforced, every marker
line of the completion becomes a sub-query. -/
theorem c8_decomposer_fallback :
    (∀ content original : String, 1 ≤ (parseSubqueries content original).length) ∧
    (∀ content original : String, qLineFilter content = [] →
      parseSubqueries content original = [original]) ∧
    (∀ (e : String) (s : AgenticAstrologyState),
      (decompose_query (Except.error e) s).decomposed_queries = [s.original_query] ∧
      (decompose_query (Except.error e) s).reasoning_trace =
        s.reasoning_trace ++ ["Decomposition failed: " ++ e]) ∧
    (∀ (content : String) (s : AgenticAstrologyState),
      (decompose_query (Except.ok content) s).decomposed_queries =
        parseSubqueries content s.original_query) := by
  refine ⟨?_, ?_, ?_, ?_⟩
  · intro content original
    unfold parseSubqueries
    by_cases h :
        ((qLineFilter content).map (fun line => pyStrip (pyReplace line "Q:" ""))).isEmpty
    · rw [if_pos h]
      exact le_refl 1
    · rw [if_neg h]
      exact List.length_pos.mpr (by simpa [List.isEmpty_iff] using h)
  · intro content original h
    unfold parseSubqueries
    rw [h]
    rfl
  · intro e s
    exact ⟨rfl, rfl⟩
  · intro content s
    rfl

/-- Witness for C8: the no-marker fallback and the lower bound at concrete
completions. -/
theorem c8_decomposer_fallback_witness :
    parseSubqueries "just prose with no markers" "orig" = ["orig"] ∧
    1 ≤ (parseSubqueries "Q: alpha" "orig").length :=
  ⟨c8_decomposer_fallback.2.1 "just prose with no markers" "orig" (by decide),
   c8_decomposer_fallback.1 "Q: alpha" "orig"⟩

/-! ## Claim C9: refinement promotes confidence and terminates the run -/

/-- C9: a successful refinement call unconditionally promotes confidence
to the favorable terminal value `high` (installing the refined answer),
and in the compiled graph the refine node's only outgoing transition goes
to END: one step after entering `refine`, execution is terminal with no
further router invocation and no further retrieval, whatever the state
and collaborators. -/
theorem c9_refiner_promotion :
    (∀ (refined : String) (s : AgenticAstrologyState),
      (refine_answer (Except.ok refined) s).confidence = "high" ∧
      (refine_answer (Except.ok refined) s).final_answer = refined) ∧
    (∀ (o : Oracle) (fuel : Nat) (s : AgenticAstrologyState) (c : Nat),
      runGraph o (fuel + 1) Node.refine s c =
        (Node.terminal, refine_answer o.refineOracle s, c)) := by
  constructor
  · intro refined s
    exact ⟨rfl, rfl⟩
  · intro o fuel s c
    show runGraph o fuel Node.terminal (refine_answer o.refineOracle s) c = _
    exact runGraph_terminal o fuel _ c

/-! ## Claim C10: the retry counter is frozen in the second pipeline -/

/-- C10: every node of the `langgraph_rag.py` graph returns `retry_count`
unchanged, whatever the collaborator outcome; hence every state reachable
from the documented initial state keeps `retry_count = 0`, the
max-retries stop rule of `decide_next_step` never fires (routing agrees
with the variant from which that rule is removed), and the run
projection's `retries` field equals 0. -/
theorem c10_retry_count_frame :
    (∀ s t : AstrologyRAGState, LangStep s t → t.retry_count = s.retry_count) ∧
    (∀ (q : String) (m : Int) (s : AstrologyRAGState),
      Relation.ReflTransGen LangStep (initLangState q m) s →
      s.retry_count = 0 ∧
      decide_next_step s = decide_next_step_noRetryStop s ∧
      (langProjection s).retries = 0) := by
  have hstep : ∀ s t : AstrologyRAGState, LangStep s t →
      t.retry_count = s.retry_count := by
    intro s t h
    cases h with
    | analyze => rfl
    | retrieve r => cases r <;> rfl
    | generate r => cases r <;> rfl
    | selfCheck r =>
      unfold self_check
      split
      · rfl
      · cases r <;> rfl
  refine ⟨hstep, ?_⟩
  intro q m s hreach
  have h0 : s.retry_count = 0 := by
    induction hreach with
    | refl => rfl
    | tail hab hbc ih => rw [hstep _ _ hbc]; exact ih
  refine ⟨h0, ?_, h0⟩
  unfold decide_next_step decide_next_step_noRetryStop
  rw [h0]
  rw [if_neg (show ¬ ((0 : Int) ≥ 2) by decide)]

/-- Witness for C10: the reachable-state conclusions at the initial state
itself. -/
theorem c10_retry_count_frame_witness :
    (initLangState "q" 2).retry_count = 0 ∧
    decide_next_step (initLangState "q" 2) =
      decide_next_step_noRetryStop (initLangState "q" 2) ∧
    (langProjection (initLangState "q" 2)).retries = 0 :=
  c10_retry_count_frame.2 "q" 2 (initLangState "q" 2) Relation.ReflTransGen.refl
